import Mathlib

/-!
Verification of the whoop-sleep-HR-data-api client library.

This file gives a shallow embedding, in Lean 4, of the core of the
repository: the request executor with its retry-on-expired-token
protocol (whoop_data/client.py), and the data-shaping pipeline
(whoop_data/data.py): date formatting and range resolution, the
cycle/sleep fan-out, and the heart-rate series flattening.

HTTP effects are modelled by passing the client's fallible operations
as explicit function arguments (an oracle per endpoint); an operation
that raises a Python exception is modelled as returning `Except.error`
with the message. Re-authentication inside `refresh_if_needed` is
assumed to succeed (each claim about the retry loop stipulates this),
so `authenticate` itself needs no failure branch here.

The current wall-clock time used by `get_default_date_range`
(data.py lines 29-42) is not embeddable, so the pair of strings it
would produce is passed in as an explicit `defaultRange` argument;
none of the claims depend on its value.
-/

set_option autoImplicit false

namespace Whoop

/-! ## Request executor (whoop_data/client.py, WhoopClient._make_request) -/

/-- Models `WhoopClient.refresh_if_needed` (client.py lines 95-109): it
re-authenticates and returns `True` exactly when the response status is
401 or 403, and returns `False` otherwise. The re-authentication itself
is assumed to succeed. Responses are modelled by their status code,
which is the only part of the response the control flow inspects. -/
def refresh_if_needed (status : Nat) : Bool :=
  status = 401 || status = 403

/-- Outcome of one `_make_request` call: the returned response status
(`Except.ok`) or the raised retries-exhausted exception
(`Except.error`), together with the number of HTTP requests sent and
the number of re-authentications performed. -/
structure RequestOutcome where
  result : Except String Nat
  requests : Nat
  reauths : Nat
deriving Repr

/-- Models the `while retry_count < max_retries` loop of
`WhoopClient._make_request` (client.py lines 143-164). `resp i` is the
status code answered to the i-th request sent (0-based); `fuel` is
`max_retries - retry_count`, which is exactly the number of loop
iterations still allowed, since `retry_count` is incremented once per
iteration that continues. On a 401/403 status the token is refreshed
and the loop continues; any other status is returned immediately.
Exhausting the loop raises the retries-exhausted exception. -/
def make_request_loop (resp : Nat → Nat) : Nat → Nat → Nat → RequestOutcome
  | 0, sent, reauths =>
    ⟨.error "Request failed after max retries", sent, reauths⟩
  | fuel + 1, sent, reauths =>
    let status := resp sent
    if status = 401 ∨ status = 403 then
      if refresh_if_needed status then
        make_request_loop resp fuel (sent + 1) (reauths + 1)
      else
        ⟨.ok status, sent + 1, reauths⟩
    else
      ⟨.ok status, sent + 1, reauths⟩

/-- Models `WhoopClient._make_request` (client.py lines 111-164),
restricted to the retry control flow: the header bookkeeping and query
parameters do not affect which response is returned. The default of
`max_retries` in the source is 3. -/
def make_request (resp : Nat → Nat) (max_retries : Nat) : RequestOutcome :=
  make_request_loop resp max_retries 0 0

/-! ## Date parsing and formatting (whoop_data/data.py, format_date)

`format_date` calls CPython's `datetime.strptime(date_str, "%Y-%m-%d")`.
CPython's `_strptime` compiles that format to the regular expression
`(?P<Y>\d\d\d\d)-(?P<m>1[0-2]|0[1-9]|[1-9])-(?P<d>3[01]|[12]\d|0[1-9]|[1-9])`,
anchors it at the start, and raises `ValueError` unless the whole input
is consumed; the `datetime` constructor then validates
`MINYEAR (1) <= year <= MAXYEAR (9999)` and
`1 <= day <= days_in_month(year, month)` (Gregorian leap rules) and
raises `ValueError` otherwise. The definitions below embed exactly that
acceptance: a 4-digit year, then a dash, then a 1-or-2-digit month
token taken greedily (values 1..12, the token "00" being excluded by
the value check), then a dash, then a 1-or-2-digit day token taken
greedily (values 1..31), then end of input. Greedy 2-digit matching is
equivalent to the regex with backtracking here because the separators
are dashes, never digits. -/

/-- The decimal digit character for `n` (expects `n < 10`; larger
arguments are clamped to '9', a case never reached by the formatters
below). -/
def digitChar : Nat → Char
  | 0 => '0'
  | 1 => '1'
  | 2 => '2'
  | 3 => '3'
  | 4 => '4'
  | 5 => '5'
  | 6 => '6'
  | 7 => '7'
  | 8 => '8'
  | _ => '9'

/-- Decides whether a character is an ASCII decimal digit. -/
def isDigit (c : Char) : Bool :=
  '0' ≤ c && c ≤ '9'

/-- Numeric value of an ASCII digit character. -/
def digitVal (c : Char) : Nat :=
  c.toNat - '0'.toNat

/-- Zero-padded 2-digit decimal rendering, as in `strftime` codes
`%m` and `%d`. -/
def pad2 (n : Nat) : List Char :=
  [digitChar (n / 10 % 10), digitChar (n % 10)]

/-- Zero-padded 4-digit decimal rendering, as in `strftime` code `%Y`
(the zero padding documented for `datetime.strftime`). -/
def pad4 (n : Nat) : List Char :=
  [digitChar (n / 1000 % 10), digitChar (n / 100 % 10),
   digitChar (n / 10 % 10), digitChar (n % 10)]

/-- Reads exactly four digit characters (the `%Y` field of the
`_strptime` regex) and returns their value and the remaining input. -/
def read4 : List Char → Option (Nat × List Char)
  | c1 :: c2 :: c3 :: c4 :: rest =>
    if isDigit c1 && isDigit c2 && isDigit c3 && isDigit c4 then
      some (digitVal c1 * 1000 + digitVal c2 * 100 +
              digitVal c3 * 10 + digitVal c4, rest)
    else
      none
  | _ => none

/-- Reads one or two digit characters, greedily preferring two (the
`%m` and `%d` fields of the `_strptime` regex; the value bounds of
those fields are checked by the caller). -/
def read1or2 : List Char → Option (Nat × List Char)
  | [] => none
  | [c1] => if isDigit c1 then some (digitVal c1, []) else none
  | c1 :: c2 :: rest =>
    if isDigit c1 then
      if isDigit c2 then
        some (digitVal c1 * 10 + digitVal c2, rest)
      else
        some (digitVal c1, c2 :: rest)
    else
      none

/-- The regex-matching phase of `datetime.strptime(s, "%Y-%m-%d")`:
year, dash, month, dash, day, end of input, with the field value
bounds enforced by the regex alternations (month 1..12, day 1..31,
neither field the token "00" nor "0", which the lower bound 1
excludes). -/
def strptime_Ymd (cs : List Char) : Option (Nat × Nat × Nat) :=
  match read4 cs with
  | none => none
  | some (y, cs1) =>
    match cs1 with
    | '-' :: cs2 =>
      (match read1or2 cs2 with
       | none => none
       | some (m, cs3) =>
         match cs3 with
         | '-' :: cs4 =>
           (match read1or2 cs4 with
            | none => none
            | some (d, cs5) =>
              if cs5 = [] ∧ 1 ≤ m ∧ m ≤ 12 ∧ 1 ≤ d ∧ d ≤ 31 then
                some (y, m, d)
              else
                none)
         | _ => none)
    | _ => none

/-- Gregorian leap-year rule, as in CPython's `datetime._is_leap`. -/
def isLeapYear (y : Nat) : Bool :=
  y % 4 = 0 && (y % 100 ≠ 0 || y % 400 = 0)

/-- Number of days in a month, as in CPython's
`datetime._days_in_month`. -/
def daysInMonth (y m : Nat) : Nat :=
  if m = 2 then
    (if isLeapYear y then 29 else 28)
  else if m = 4 ∨ m = 6 ∨ m = 9 ∨ m = 11 then
    30
  else
    31

/-- The validation performed by the `datetime` constructor on the
fields extracted by `strptime`: year within `MINYEAR..MAXYEAR` and day
within the month (`ValueError`, i.e. `none`, otherwise). -/
def mkDatetime (y m d : Nat) : Option (Nat × Nat × Nat) :=
  if 1 ≤ y ∧ y ≤ 9999 ∧ 1 ≤ m ∧ m ≤ 12 ∧ 1 ≤ d ∧ d ≤ daysInMonth y m then
    some (y, m, d)
  else
    none

/-- Full model of `datetime.strptime(s, "%Y-%m-%d")`: regex matching
followed by constructor validation; `none` models the raised
`ValueError`. -/
def strptime (cs : List Char) : Option (Nat × Nat × Nat) :=
  match strptime_Ymd cs with
  | none => none
  | some (y, m, d) => mkDatetime y m d

/-- The characters appended after the date by
`date_obj.strftime('%Y-%m-%dT%H:%M:%S.000')` plus the trailing "Z" of
the f-string in `format_date` (data.py line 26); the time fields are
all zero because `strptime` with a date-only format leaves them at
their defaults. -/
def isoSuffix : List Char :=
  "T00:00:00.000Z".data

/-- The full character rendering produced by `format_date` on a parsed
date: `strftime('%Y-%m-%dT%H:%M:%S.000')` followed by "Z". -/
def strftime_iso (y m d : Nat) : List Char :=
  pad4 y ++ '-' :: (pad2 m ++ '-' :: (pad2 d ++ isoSuffix))

/-- Models `format_date` (data.py lines 11-26). The argument is an
`Option String` so that the Python `None` input is representable;
`if not date_str: return None` returns `None` for the falsy inputs
(`None` and the empty string), a `ValueError` escaping from `strptime`
is `Except.error`, and otherwise the ISO rendering is returned. -/
def format_date (date_str : Option String) : Except String (Option String) :=
  match date_str with
  | none => .ok none
  | some s =>
    if s.data = [] then
      .ok none
    else
      match strptime s.data with
      | none => .error "ValueError: time data does not match format Y-m-d"
      | some (y, m, d) => .ok (some (String.mk (strftime_iso y m d)))

/-- A calendar date rendered in the canonical zero-padded YYYY-MM-DD
form; this is the statement-side description of the spec's "valid
YYYY-MM-DD input", to be compared with what `format_date` does. -/
def canonicalDate (y m d : Nat) : String :=
  String.mk (pad4 y ++ '-' :: (pad2 m ++ '-' :: pad2 d))

/-! ## Date-range resolution (whoop_data/data.py, get_date_range) -/

/-- Python truthiness of an optional string: `None` and the empty
string are falsy. -/
def pyTruthy : Option String → Bool
  | none => false
  | some s => !s.data.isEmpty

/-- The pattern of the textual substring replacement
`end_iso.replace("00:00:00.000Z", "23:59:59.999Z")`
(data.py line 60). -/
def eodPat : List Char :=
  "00:00:00.000Z".data

/-- The replacement text of that substring replacement. -/
def eodRep : List Char :=
  "23:59:59.999Z".data

/-- Left-to-right, non-overlapping replacement of every occurrence of
`eodPat` by `eodRep`, the semantics of Python's `str.replace` for this
fixed 13-character pattern. The fuel argument (instantiated with the
length of the list, an upper bound on the number of scan steps) makes
the recursion structural. -/
def replaceEodAux : Nat → List Char → List Char
  | 0, l => l
  | _ + 1, [] => []
  | fuel + 1, c :: rest =>
    if eodPat.isPrefixOf (c :: rest) then
      eodRep ++ replaceEodAux fuel (rest.drop 12)
    else
      c :: replaceEodAux fuel rest

/-- Models `end_iso.replace("00:00:00.000Z", "23:59:59.999Z")`. -/
def replaceEod (l : List Char) : List Char :=
  replaceEodAux l.length l

/-- Models `get_date_range` (data.py lines 45-64). When both dates are
truthy, each is formatted through `format_date` (a `ValueError` from
the start date propagates before the end date is examined, as in the
source's statement order) and the end value undergoes the
end-of-day substring replacement; the (unreachable under truthiness)
case of `format_date` returning `None` for the end date would raise an
`AttributeError` at `.replace`. Otherwise the default last-7-days
range, supplied here as `defaultRange`, is returned. -/
def get_date_range (defaultRange : String × String)
    (start_date end_date : Option String) :
    Except String (Option String × Option String) :=
  if pyTruthy start_date && pyTruthy end_date then
    match format_date start_date, format_date end_date with
    | .error e, _ => .error e
    | .ok _, .error e => .error e
    | .ok _, .ok none =>
      .error "AttributeError: NoneType object has no attribute replace"
    | .ok si, .ok (some ei) =>
      .ok (si, some (String.mk (replaceEod ei.data)))
  else
    .ok (some defaultRange.1, some defaultRange.2)

/-! ## Heart-rate series flattening (whoop_data/data.py, get_heart_rate_data) -/

/-- The heart-rate payload returned by the vendor: a JSON object with
optional parallel `times` and `values` arrays (`none` models an absent
key). -/
structure HrPayload where
  times : Option (List Int)
  values : Option (List Int)
deriving DecidableEq, Repr

/-- One flattened heart-rate point `{timestamp, heart_rate}`. -/
structure HrPoint where
  timestamp : Int
  heart_rate : Int
deriving DecidableEq, Repr

/-- The index loop of `get_heart_rate_data` (data.py lines 162-167):
for each `i` in `range(len(timestamps))`, if `i < len(values)` emit the
pair at `i`. The in-bounds array accesses of the source are rendered
with optional indexing; the `values` lookup succeeding is exactly the
source's `i < len(values)` test, and the `timestamps` lookup always
succeeds for `i` in range. -/
def hrLoop (timestamps vals : List Int) : List HrPoint :=
  (List.range timestamps.length).filterMap fun i =>
    match timestamps[i]?, vals[i]? with
    | some t, some v => some ⟨t, v⟩
    | _, _ => none

/-- The payload-processing part of `get_heart_rate_data`
(data.py lines 155-169): `if hr_data and "values" in hr_data` guards
the loop (an absent payload or an absent `values` key yields the empty
list), and `times` defaults to the empty list when absent. -/
def process_heart_rate (hr_data : Option HrPayload) : List HrPoint :=
  match hr_data with
  | none => []
  | some d =>
    match d.values with
    | none => []
    | some vs => hrLoop (d.times.getD []) vs

/-- Models `get_heart_rate_data` (data.py lines 126-169): resolve the
date range, fetch the payload through the client (here the oracle
`fetch`), then flatten. A failure of either step propagates. -/
def get_heart_rate_data
    (fetch : Option String → Option String → Except String (Option HrPayload))
    (defaultRange : String × String)
    (start_date end_date : Option String) : Except String (List HrPoint) :=
  match get_date_range defaultRange start_date end_date with
  | .error e => .error e
  | .ok (si, ei) =>
    match fetch si ei with
    | .error e => .error e
    | .ok hr => .ok (process_heart_rate hr)

/-! ## Cycle/sleep fan-out (whoop_data/data.py, get_sleep_data) -/

/-- A cycle record as used by `get_sleep_data`: only the `id` and
`day` keys are read (`cycle.get` returns `None`, here `none`, when a
key is absent). -/
structure Cycle where
  id : Option Int
  day : Option String
deriving DecidableEq, Repr

/-- One entry of a sleep vow's `sleeps` list; only its `id` key is
read. -/
structure SleepEvent where
  id : Option Int
deriving DecidableEq, Repr

/-- A sleep-vow payload; only its `sleeps` key is read
(`sleep_vow.get("sleeps", [])` defaults to the empty list). -/
structure SleepVow where
  sleeps : Option (List SleepEvent)
deriving DecidableEq, Repr

/-- A flattened sleep record as appended by `get_sleep_data`
(data.py lines 113-118); `data` is the detail payload carried
verbatim, modelled as a JSON-object association list. -/
structure SleepRecord where
  date : Option String
  cycle_id : Option Int
  activity_id : Int
  data : List (String × String)
deriving DecidableEq, Repr

/-- The client operations `get_sleep_data` calls, as oracles; an
`Except.error` models the operation raising. The string arguments are
the `str(...)` renderings the source passes. -/
structure SleepApi where
  get_cycles : Option String → Option String → Except String (List Cycle)
  get_sleep_vow : String → Except String SleepVow
  get_sleep_event : String → Except String (List (String × String))

/-- Python's `str(...)` on an optional integer: `str(None)` is
"None". -/
def pyStr : Option Int → String
  | none => "None"
  | some n => toString n

/-- The inner `for sleep_event in sleep_vow.get("sleeps", [])` loop of
`get_sleep_data` (data.py lines 104-118), running inside the per-cycle
`try`. Events with a falsy `id` (absent or zero) are skipped; a detail
payload is fetched for the others and appended when non-empty
(`if sleep_detail:`). A raising detail fetch aborts the rest of this
cycle's list but keeps everything accumulated so far, because the
exception is caught by the per-cycle handler. -/
def processSleeps (api : SleepApi) (cycle : Cycle) :
    List SleepEvent → List SleepRecord → List SleepRecord
  | [], acc => acc
  | ev :: rest, acc =>
    match ev.id with
    | none => processSleeps api cycle rest acc
    | some aid =>
      if aid = 0 then
        processSleeps api cycle rest acc
      else
        match api.get_sleep_event (toString aid) with
        | .error _ => acc
        | .ok detail =>
          if detail = [] then
            processSleeps api cycle rest acc
          else
            processSleeps api cycle rest
              (acc ++ [⟨cycle.day, cycle.id, aid, detail⟩])

/-- One iteration of the `for cycle in cycles` loop of
`get_sleep_data` (data.py lines 96-121): the `try` block covers the
vow fetch and the whole inner event loop; on any exception the error
is printed and the loop continues with the next cycle, keeping the
accumulator as it stood when the exception was raised. -/
def processCycle (api : SleepApi) (acc : List SleepRecord) (cycle : Cycle) :
    List SleepRecord :=
  match api.get_sleep_vow (pyStr cycle.id) with
  | .error _ => acc
  | .ok vow => processSleeps api cycle (vow.sleeps.getD []) acc

/-- Models `get_sleep_data` (data.py lines 67-123): resolve the date
range, fetch the cycles (a failure of either step propagates), then
run the per-cycle loop over the accumulator. -/
def get_sleep_data (api : SleepApi) (defaultRange : String × String)
    (start_date end_date : Option String) :
    Except String (List SleepRecord) :=
  match get_date_range defaultRange start_date end_date with
  | .error e => .error e
  | .ok (si, ei) =>
    match api.get_cycles si ei with
    | .error e => .error e
    | .ok cycles => .ok (cycles.foldl (processCycle api) [])

/-! ## Concrete clients used as witnesses and counterexamples -/

/-- A cycle with identifier 1. -/
def cycleA : Cycle := ⟨some 1, some "2023-01-01"⟩

/-- A cycle with identifier 2. -/
def cycleB : Cycle := ⟨some 2, some "2023-01-02"⟩

/-- A client whose single cycle has one sleep event whose detail fetch
raises: the per-sleep-event failure scenario of C2. -/
def apiDetailFails : SleepApi :=
  ⟨fun _ _ => .ok [cycleA],
   fun _ => .ok ⟨some [⟨some 5⟩]⟩,
   fun _ => .error "boom"⟩

/-- A client with two cycles where the first cycle's only sleep event
has a raising detail fetch and the second cycle's succeeds. -/
def apiDetailFailsThenOk : SleepApi :=
  ⟨fun _ _ => .ok [cycleA, cycleB],
   fun cid => if cid = "1" then .ok ⟨some [⟨some 4⟩]⟩ else .ok ⟨some [⟨some 7⟩]⟩,
   fun aid => if aid = "4" then .error "detail failed" else .ok [("x", "y")]⟩

/-- A client with two cycles where the first cycle's vow fetch raises
and the second cycle has one good sleep event: the C3 scenario. -/
def apiVowFails : SleepApi :=
  ⟨fun _ _ => .ok [cycleA, cycleB],
   fun cid => if cid = "1" then .error "vow failed" else .ok ⟨some [⟨some 7⟩]⟩,
   fun _ => .ok [("score", "85")]⟩

/-- A client whose cycles fetch returns the empty list. -/
def apiNoCycles : SleepApi :=
  ⟨fun _ _ => .ok [],
   fun _ => .error "unused",
   fun _ => .error "unused"⟩

/-- A client whose cycles fetch raises. -/
def apiCyclesFail : SleepApi :=
  ⟨fun _ _ => .error "cycles fetch failed",
   fun _ => .error "unused",
   fun _ => .error "unused"⟩

/-- A client whose single cycle has three sleep events, the second of
which has a raising detail fetch: the C10 mid-cycle scenario. -/
def apiMidCycleFails : SleepApi :=
  ⟨fun _ _ => .ok [cycleA],
   fun _ => .ok ⟨some [⟨some 1⟩, ⟨some 2⟩, ⟨some 3⟩]⟩,
   fun aid => if aid = "2" then .error "mid-cycle failure" else .ok [("k", "v")]⟩

/-! ## Basic facts about digit characters -/

/-- Every output of the formatter's digit table is an ASCII digit. -/
theorem isDigit_digitChar (n : Nat) : isDigit (digitChar n) = true := by
  rcases n with _|_|_|_|_|_|_|_|_|_|n <;> rfl

/-- The digit table inverts to the numeric value below 10. -/
theorem digitVal_digitChar (n : Nat) (h : n < 10) :
    digitVal (digitChar n) = n := by
  rcases n with _|_|_|_|_|_|_|_|_|_|n
  · rfl
  · rfl
  · rfl
  · rfl
  · rfl
  · rfl
  · rfl
  · rfl
  · rfl
  · rfl
  · exact absurd h (by omega)

/-- A digit character is never a colon. -/
theorem colon_beq_digitChar (n : Nat) : (':' == digitChar n) = false := by
  rcases n with _|_|_|_|_|_|_|_|_|_|n <;> rfl

/-! ## Claim C1 -/

/-- C1: if the first request attempt returns status 401 (with
re-authentication succeeding) and the second attempt returns status
200, then `_make_request` (with any retry budget of at least 2, in
particular the source default 3) returns the 200 response after
exactly one re-authentication and exactly two sent requests, and does
not raise the retries-exhausted error. -/
theorem c1_make_request_401_then_200 (resp : Nat → Nat) (max_retries : Nat)
    (hmr : 2 ≤ max_retries) (h0 : resp 0 = 401) (h1 : resp 1 = 200) :
    make_request resp max_retries = ⟨.ok 200, 2, 1⟩ := by
  obtain ⟨k, rfl⟩ : ∃ k, max_retries = k + 2 := ⟨max_retries - 2, by omega⟩
  simp [make_request, make_request_loop, refresh_if_needed, h0, h1]

/-- Witness for C1 at a concrete response sequence (401 then 200) and
the source's default retry budget of 3. -/
theorem c1_make_request_401_then_200_witness :
    make_request (fun i => if i = 0 then 401 else 200) 3 = ⟨.ok 200, 2, 1⟩ :=
  c1_make_request_401_then_200 (fun i => if i = 0 then 401 else 200) 3
    (by omega) rfl rfl

/-! ## Claim C4 -/

/-- C4: with `max_retries = 2` and every sent request answered with
status 401 (re-authentication itself succeeding each time),
`_make_request` raises the retries-exhausted error after exactly 2
request attempts, each followed by a re-authentication (2 sent
requests, 2 re-authentications, no response returned). -/
theorem c4_make_request_exhausted (resp : Nat → Nat) (h : ∀ i, resp i = 401) :
    make_request resp 2 =
      ⟨.error "Request failed after max retries", 2, 2⟩ := by
  simp [make_request, make_request_loop, refresh_if_needed, h]

/-- Witness for C4 at the constant-401 response sequence. -/
theorem c4_make_request_exhausted_witness :
    make_request (fun _ => 401) 2 =
      ⟨.error "Request failed after max retries", 2, 2⟩ :=
  c4_make_request_exhausted (fun _ => 401) (fun _ => rfl)

/-! ## Claim C9 -/

/-- C9: for every falsy input — `None` or the empty string, the only
falsy values of the input type — `format_date` returns `None` without
raising, rather than failing with the invalid-date-format error. -/
theorem c9_format_date_falsy_returns_none :
    format_date none = .ok none ∧ format_date (some "") = .ok none :=
  ⟨rfl, rfl⟩

/-! ## Facts about the cycle/sleep fan-out -/

/-- A cycle whose vow fetch raises contributes nothing and leaves the
accumulator unchanged (the per-cycle exception handler). -/
theorem processCycle_vow_error (api : SleepApi) (c : Cycle) (msg : String)
    (h : api.get_sleep_vow (pyStr c.id) = .error msg)
    (acc : List SleepRecord) :
    processCycle api acc c = acc := by
  simp [processCycle, h]

/-- The inner event loop only appends to the accumulator it is given:
whatever was accumulated before the loop started (in particular before
any mid-loop exception) stays in the output. -/
theorem processSleeps_append (api : SleepApi) (c : Cycle)
    (evs : List SleepEvent) :
    ∀ acc : List SleepRecord,
      processSleeps api c evs acc = acc ++ processSleeps api c evs [] := by
  induction evs with
  | nil => intro acc; simp [processSleeps]
  | cons ev rest ih =>
    intro acc
    cases hid : ev.id with
    | none =>
      have hstep : ∀ a, processSleeps api c (ev :: rest) a
          = processSleeps api c rest a := fun a => by
        simp [processSleeps, hid]
      rw [hstep acc, hstep [], ih acc]
    | some aid =>
      by_cases h0 : aid = 0
      · have hstep : ∀ a, processSleeps api c (ev :: rest) a
            = processSleeps api c rest a := fun a => by
          simp [processSleeps, hid, h0]
        rw [hstep acc, hstep [], ih acc]
      · cases hev : api.get_sleep_event (toString aid) with
        | error e =>
          have hstep : ∀ a, processSleeps api c (ev :: rest) a = a :=
            fun a => by simp [processSleeps, hid, h0, hev]
          rw [hstep acc, hstep []]
          simp
        | ok detail =>
          by_cases hd : detail = []
          · have hstep : ∀ a, processSleeps api c (ev :: rest) a
                = processSleeps api c rest a := fun a => by
              simp [processSleeps, hid, h0, hev, hd]
            rw [hstep acc, hstep [], ih acc]
          · have hstep : ∀ a, processSleeps api c (ev :: rest) a
                = processSleeps api c rest (a ++ [⟨c.day, c.id, aid, detail⟩]) :=
              fun a => by simp [processSleeps, hid, h0, hev, hd]
            rw [hstep acc, hstep [], List.nil_append,
              ih (acc ++ [(⟨c.day, c.id, aid, detail⟩ : SleepRecord)]),
              ih [(⟨c.day, c.id, aid, detail⟩ : SleepRecord)],
              List.append_assoc]

/-- When some event in the list has a raising detail fetch, the event
loop behaves exactly as if the list ended just before the first such
failure it reaches: the remaining entries of that cycle are skipped
and the accumulator stands. -/
theorem processSleeps_stops_at_error (api : SleepApi) (c : Cycle)
    (ev : SleepEvent) (aid : Int) (msg : String)
    (hid : ev.id = some aid) (h0 : aid ≠ 0)
    (hev : api.get_sleep_event (toString aid) = .error msg) :
    ∀ (evs1 evs2 : List SleepEvent) (acc : List SleepRecord),
      processSleeps api c (evs1 ++ ev :: evs2) acc
        = processSleeps api c evs1 acc := by
  intro evs1
  induction evs1 with
  | nil =>
    intro evs2 acc
    simp [processSleeps, hid, h0, hev]
  | cons e rest ih =>
    intro evs2 acc
    rw [List.cons_append]
    cases hide : e.id with
    | none =>
      have hstep : ∀ l a, processSleeps api c (e :: l) a
          = processSleeps api c l a := fun l a => by
        simp [processSleeps, hide]
      rw [hstep, hstep, ih evs2 acc]
    | some bid =>
      by_cases hb0 : bid = 0
      · have hstep : ∀ l a, processSleeps api c (e :: l) a
            = processSleeps api c l a := fun l a => by
          simp [processSleeps, hide, hb0]
        rw [hstep, hstep, ih evs2 acc]
      · cases hevb : api.get_sleep_event (toString bid) with
        | error eb =>
          have hstep : ∀ l a, processSleeps api c (e :: l) a = a :=
            fun l a => by simp [processSleeps, hide, hb0, hevb]
          rw [hstep, hstep]
        | ok detail =>
          by_cases hd : detail = []
          · have hstep : ∀ l a, processSleeps api c (e :: l) a
                = processSleeps api c l a := fun l a => by
              simp [processSleeps, hide, hb0, hevb, hd]
            rw [hstep, hstep, ih evs2 acc]
          · have hstep : ∀ l a, processSleeps api c (e :: l) a
                = processSleeps api c l (a ++ [⟨c.day, c.id, bid, detail⟩]) :=
              fun l a => by simp [processSleeps, hide, hb0, hevb, hd]
            rw [hstep, hstep,
              ih evs2 (acc ++ [(⟨c.day, c.id, bid, detail⟩ : SleepRecord)])]

/-! ## Claim C8 -/

/-- C8: when the cycles fetch returns an empty list, `get_sleep_data`
returns the empty sequence and raises no error. -/
theorem c8_get_sleep_data_empty_cycles (api : SleepApi)
    (defaultRange : String × String) (start_date end_date si ei : Option String)
    (hr : get_date_range defaultRange start_date end_date = .ok (si, ei))
    (hc : api.get_cycles si ei = .ok []) :
    get_sleep_data api defaultRange start_date end_date = .ok [] := by
  simp [get_sleep_data, hr, hc]

/-- Witness for C8: a concrete client whose cycles fetch yields the
empty list. -/
theorem c8_get_sleep_data_empty_cycles_witness :
    get_sleep_data apiNoCycles ("s", "e") none none = .ok [] :=
  c8_get_sleep_data_empty_cycles apiNoCycles ("s", "e") none none
    (some "s") (some "e") rfl rfl

/-! ## Claim C2 (corrected)

The claim states that a failure of the per-sleep-event detail fetch
propagates out of `get_sleep_data` as a fatal error. It does not: the
source's `try` block (data.py lines 100-121) encloses both the vow
fetch and the inner event loop, so an exception raised by
`get_sleep_event` is caught by the per-cycle handler, logged, and the
loop continues with the next cycle. The counterexample below exhibits
a client whose only cycle's only sleep event has a raising detail
fetch: `get_sleep_data` returns `ok []` instead of propagating the
error. The part of the claim about the top-level cycles fetch is
right, and is proved in the amended theorem. -/

/-- C2 counterexample: with one cycle whose single sleep event's
detail fetch raises, `get_sleep_data` returns the empty list rather
than (as claimed) propagating the failure as a fatal error. -/
theorem c2_detail_failure_counterexample :
    get_sleep_data apiDetailFails ("s", "e") none none = .ok [] := rfl

/-- C2 amended: a failure of the top-level cycles fetch propagates out
of `get_sleep_data`, but nothing below it does: whenever the date
range resolves and the cycles fetch succeeds, `get_sleep_data` returns
an `ok` result however the vow and detail fetches behave — a
per-sleep-event detail-fetch failure is caught by the per-cycle
handler (concretely: with the first cycle's detail fetch raising and
the second cycle succeeding, exactly the second cycle's record is
returned). -/
theorem c2_only_cycles_failure_fatal :
    (∀ (api : SleepApi) (dr : String × String) (sd ed si ei : Option String)
      (msg : String),
      get_date_range dr sd ed = .ok (si, ei) →
      api.get_cycles si ei = .error msg →
      get_sleep_data api dr sd ed = .error msg)
    ∧ (∀ (api : SleepApi) (dr : String × String) (sd ed si ei : Option String)
        (cycles : List Cycle),
        get_date_range dr sd ed = .ok (si, ei) →
        api.get_cycles si ei = .ok cycles →
        get_sleep_data api dr sd ed = .ok (cycles.foldl (processCycle api) []))
    ∧ get_sleep_data apiDetailFailsThenOk ("s", "e") none none
        = .ok [⟨some "2023-01-02", some 2, 7, [("x", "y")]⟩] := by
  refine ⟨?_, ?_, rfl⟩
  · intro api dr sd ed si ei msg h1 h2
    simp [get_sleep_data, h1, h2]
  · intro api dr sd ed si ei cycles h1 h2
    simp [get_sleep_data, h1, h2]

/-- Witness for the amended C2: a concrete client whose cycles fetch
raises, and the error propagates. -/
theorem c2_only_cycles_failure_fatal_witness :
    get_sleep_data apiCyclesFail ("s", "e") none none
      = .error "cycles fetch failed" :=
  c2_only_cycles_failure_fatal.1 apiCyclesFail ("s", "e") none none
    (some "s") (some "e") "cycles fetch failed" rfl rfl

/-! ## Claim C3 -/

/-- C3: a vow-fetch failure for one cycle never removes records
produced from other cycles: deleting the failing cycle from the cycle
list leaves the accumulated output of the fan-out loop unchanged, so
processing continues past it. Concretely, with two cycles where the
first's vow fetch raises and the second's vow yields exactly one sleep
event with a present identifier and a non-empty detail payload,
`get_sleep_data` returns exactly the one flattened record of the
successful cycle. -/
theorem c3_vow_failure_partial_results :
    (∀ (api : SleepApi) (c : Cycle) (msg : String),
      api.get_sleep_vow (pyStr c.id) = .error msg →
      ∀ (pre post : List Cycle) (acc : List SleepRecord),
        (pre ++ c :: post).foldl (processCycle api) acc
          = (pre ++ post).foldl (processCycle api) acc)
    ∧ get_sleep_data apiVowFails ("s", "e") none none
        = .ok [⟨some "2023-01-02", some 2, 7, [("score", "85")]⟩] := by
  constructor
  · intro api c msg h pre post acc
    simp [List.foldl_append, List.foldl_cons,
      processCycle_vow_error api c msg h]
  · rfl

/-- Witness for C3: with the concrete two-cycle client, dropping the
cycle with the failing vow fetch does not change the fan-out output. -/
theorem c3_vow_failure_partial_results_witness :
    ([] ++ cycleA :: [cycleB]).foldl (processCycle apiVowFails) []
      = ([] ++ [cycleB]).foldl (processCycle apiVowFails) [] :=
  c3_vow_failure_partial_results.1 apiVowFails cycleA "vow failed" rfl
    [] [cycleB] []

/-! ## Claim C10 -/

/-- C10: a mid-cycle detail-fetch failure is not atomic for the cycle:
the records already appended stay in the output (the loop only ever
appends to its accumulator) and the remaining sleep entries of that
cycle are skipped (the loop behaves as if the list ended at the
failing event). Concretely, with one cycle whose three events are
good, failing, good, exactly the first event's record is returned. -/
theorem c10_mid_cycle_failure_keeps_records :
    (∀ (api : SleepApi) (c : Cycle) (ev : SleepEvent) (aid : Int)
      (msg : String),
      ev.id = some aid → aid ≠ 0 →
      api.get_sleep_event (toString aid) = .error msg →
      ∀ (evs1 evs2 : List SleepEvent) (acc : List SleepRecord),
        processSleeps api c (evs1 ++ ev :: evs2) acc
          = processSleeps api c evs1 acc)
    ∧ (∀ (api : SleepApi) (c : Cycle) (evs : List SleepEvent)
        (acc : List SleepRecord),
        processSleeps api c evs acc = acc ++ processSleeps api c evs [])
    ∧ get_sleep_data apiMidCycleFails ("s", "e") none none
        = .ok [⟨some "2023-01-01", some 1, 1, [("k", "v")]⟩] :=
  ⟨fun api c ev aid msg hid h0 hev =>
      processSleeps_stops_at_error api c ev aid msg hid h0 hev,
   fun api c evs acc => processSleeps_append api c evs acc,
   rfl⟩

/-- Witness for C10 at the concrete mid-cycle-failure client: the
event list truncates at the failing event, over a non-empty
accumulator that is preserved. -/
theorem c10_mid_cycle_failure_keeps_records_witness :
    processSleeps apiMidCycleFails cycleA ([⟨some 1⟩] ++ ⟨some 2⟩ :: [⟨some 3⟩])
        [⟨some "2023-01-01", some 1, 1, [("k", "v")]⟩]
      = processSleeps apiMidCycleFails cycleA [⟨some 1⟩]
          [⟨some "2023-01-01", some 1, 1, [("k", "v")]⟩] :=
  c10_mid_cycle_failure_keeps_records.1 apiMidCycleFails cycleA ⟨some 2⟩ 2
    "mid-cycle failure" rfl (by decide) rfl [⟨some 1⟩] [⟨some 3⟩]
    [⟨some "2023-01-01", some 1, 1, [("k", "v")]⟩]

/-! ## Facts about the heart-rate flattening -/

/-- Any function behaving like the body of the index loop, filtered
over the range of timestamp indices, computes the positional zip of
the two arrays. -/
theorem hrLoop_aux (ts : List Int) :
    ∀ (vs : List Int) (f : Nat → Option HrPoint),
      (∀ i, f i = match ts[i]?, vs[i]? with
        | some t, some v => some ⟨t, v⟩
        | _, _ => none) →
      (List.range ts.length).filterMap f
        = (ts.zip vs).map fun p => ⟨p.1, p.2⟩ := by
  induction ts with
  | nil => intro vs f hf; simp
  | cons t ts ih =>
    intro vs f hf
    cases vs with
    | nil =>
      simp only [List.zip_nil_right, List.map_nil]
      refine List.filterMap_eq_nil_iff.mpr fun i hi => ?_
      rw [hf i]
      cases (t :: ts)[i]? <;> simp
    | cons v vs =>
      rw [List.length_cons, List.range_succ_eq_map, List.filterMap_cons]
      have hf0 : f 0 = some ⟨t, v⟩ := by rw [hf 0]; simp
      rw [hf0, List.filterMap_map]
      have htail : (List.range ts.length).filterMap (f ∘ Nat.succ)
          = (ts.zip vs).map fun p => ⟨p.1, p.2⟩ := by
        refine ih vs (f ∘ Nat.succ) fun i => ?_
        simpa [Function.comp] using hf (i + 1)
      rw [htail]
      simp

/-- The index loop of the flattener is positional zipping: one output
point for each index present in both arrays, in index order, with
trailing timestamps beyond the value array dropped. -/
theorem hrLoop_eq_zip (ts vs : List Int) :
    hrLoop ts vs = (ts.zip vs).map fun p => ⟨p.1, p.2⟩ :=
  hrLoop_aux ts vs _ fun _ => rfl

/-! ## Claim C5 -/

/-- C5: for every heart-rate payload, if the payload is absent or the
`values` key is absent, `get_heart_rate_data` returns the empty
sequence; otherwise the result pairs `times[i]` with `values[i]` in
index order for every index present in both arrays (their positional
zip), trailing timestamps beyond the value array being dropped
silently. In particular the payload with times `[1, 2, 3]` and values
`[10, 20]` yields exactly the two points `(1, 10)` and `(2, 20)`. -/
theorem c5_heart_rate_flattening :
    (∀ dr : String × String,
      get_heart_rate_data (fun _ _ => .ok none) dr none none = .ok [])
    ∧ (∀ (dr : String × String) (d : HrPayload), d.values = none →
        get_heart_rate_data (fun _ _ => .ok (some d)) dr none none = .ok [])
    ∧ (∀ (dr : String × String) (d : HrPayload) (vs : List Int),
        d.values = some vs →
        get_heart_rate_data (fun _ _ => .ok (some d)) dr none none
          = .ok (((d.times.getD []).zip vs).map fun p => ⟨p.1, p.2⟩))
    ∧ (∀ dr : String × String,
        get_heart_rate_data
            (fun _ _ => .ok (some ⟨some [1, 2, 3], some [10, 20]⟩))
            dr none none
          = .ok [⟨1, 10⟩, ⟨2, 20⟩]) := by
  refine ⟨fun dr => rfl, ?_, ?_, fun dr => rfl⟩
  · intro dr d h
    simp [get_heart_rate_data, get_date_range, pyTruthy, process_heart_rate, h]
  · intro dr d vs h
    simp [get_heart_rate_data, get_date_range, pyTruthy, process_heart_rate, h,
      hrLoop_eq_zip]

/-- Witness for C5 at the concrete payload of the claim. -/
theorem c5_heart_rate_flattening_witness :
    get_heart_rate_data (fun _ _ => .ok (some ⟨some [1, 2, 3], some [10, 20]⟩))
        ("", "") none none = .ok [⟨1, 10⟩, ⟨2, 20⟩] :=
  c5_heart_rate_flattening.2.2.2 ("", "")

/-! ## Facts about date parsing and formatting -/

/-- Reading four digits back from the 4-digit zero-padded rendering
recovers the number (for numbers of at most four digits). -/
theorem read4_pad4 (y : Nat) (hy : y ≤ 9999) (rest : List Char) :
    read4 (pad4 y ++ rest) = some (y, rest) := by
  have h1 : y / 1000 % 10 < 10 := Nat.mod_lt _ (by omega)
  have h2 : y / 100 % 10 < 10 := Nat.mod_lt _ (by omega)
  have h3 : y / 10 % 10 < 10 := Nat.mod_lt _ (by omega)
  have h4 : y % 10 < 10 := Nat.mod_lt _ (by omega)
  have hval : y / 1000 % 10 * 1000 + y / 100 % 10 * 100
      + y / 10 % 10 * 10 + y % 10 = y := by omega
  simp [pad4, read4, isDigit_digitChar, digitVal_digitChar _ h1,
    digitVal_digitChar _ h2, digitVal_digitChar _ h3,
    digitVal_digitChar _ h4, hval]

/-- Reading one-or-two digits greedily from the 2-digit zero-padded
rendering recovers the number (for numbers of at most two digits),
whatever follows. -/
theorem read1or2_pad2 (m : Nat) (hm : m < 100) (rest : List Char) :
    read1or2 (pad2 m ++ rest) = some (m, rest) := by
  have h1 : m / 10 % 10 < 10 := Nat.mod_lt _ (by omega)
  have h2 : m % 10 < 10 := Nat.mod_lt _ (by omega)
  have hval : m / 10 % 10 * 10 + m % 10 = m := by omega
  simp [pad2, read1or2, isDigit_digitChar, digitVal_digitChar _ h1,
    digitVal_digitChar _ h2, hval]

/-- Variant of the previous fact at the end of the input. -/
theorem read1or2_pad2_nil (m : Nat) (hm : m < 100) :
    read1or2 (pad2 m) = some (m, []) := by
  have h := read1or2_pad2 m hm []
  simpa using h

/-- No month has more than 31 days. -/
theorem daysInMonth_le (y m : Nat) : daysInMonth y m ≤ 31 := by
  unfold daysInMonth
  split
  · split <;> omega
  · split <;> omega

/-- The embedded `strptime` accepts the canonical zero-padded
rendering of every valid calendar date and returns its fields. -/
theorem strptime_canonical (y m d : Nat) (hy1 : 1 ≤ y) (hy2 : y ≤ 9999)
    (hm1 : 1 ≤ m) (hm2 : m ≤ 12) (hd1 : 1 ≤ d) (hd2 : d ≤ daysInMonth y m) :
    strptime (pad4 y ++ '-' :: (pad2 m ++ '-' :: pad2 d)) = some (y, m, d) := by
  have hd31 : d ≤ 31 := le_trans hd2 (daysInMonth_le y m)
  have h4 := read4_pad4 y hy2 ('-' :: (pad2 m ++ '-' :: pad2 d))
  have hm' := read1or2_pad2 m (by omega) ('-' :: pad2 d)
  have hd' := read1or2_pad2_nil d (by omega)
  simp [strptime, strptime_Ymd, mkDatetime, h4, hm', hd', hy1, hy2, hm1, hm2,
    hd1, hd2, hd31]

/-! ## Claim C7 -/

/-- C7: for every valid calendar date written in the canonical
zero-padded YYYY-MM-DD form, `format_date` returns exactly that date
followed by the literal `T00:00:00.000Z`; and for every non-empty
string rejected by the `%Y-%m-%d` parse (including well-shaped but
calendar-invalid dates), `format_date` fails with the
invalid-date-format error. -/
theorem c7_format_date_valid_and_invalid :
    (∀ y m d : Nat, 1 ≤ y → y ≤ 9999 → 1 ≤ m → m ≤ 12 → 1 ≤ d →
      d ≤ daysInMonth y m →
      format_date (some (canonicalDate y m d))
        = .ok (some (canonicalDate y m d ++ "T00:00:00.000Z")))
    ∧ (∀ s : String, s.data ≠ [] → strptime s.data = none →
        format_date (some s)
          = .error "ValueError: time data does not match format Y-m-d") := by
  constructor
  · intro y m d hy1 hy2 hm1 hm2 hd1 hd2
    have hparse : strptime (canonicalDate y m d).data = some (y, m, d) :=
      strptime_canonical y m d hy1 hy2 hm1 hm2 hd1 hd2
    have hne : (canonicalDate y m d).data ≠ [] := by
      show pad4 y ++ '-' :: (pad2 m ++ '-' :: pad2 d) ≠ []
      simp [pad4]
    have hout : canonicalDate y m d ++ "T00:00:00.000Z"
        = String.mk (strftime_iso y m d) := by
      apply String.ext
      rw [String.data_append]
      show (pad4 y ++ '-' :: (pad2 m ++ '-' :: pad2 d)) ++ isoSuffix
        = strftime_iso y m d
      simp [strftime_iso, List.append_assoc]
    simp [format_date, hne, hparse, hout]
  · intro s hne hparse
    simp [format_date, hne, hparse]

/-- Witness for C7: the valid date 2023-01-05 is formatted verbatim
with the midnight suffix, and the well-shaped but calendar-invalid
2023-02-30 is rejected. -/
theorem c7_format_date_valid_and_invalid_witness :
    format_date (some "2023-01-05") = .ok (some "2023-01-05T00:00:00.000Z")
    ∧ format_date (some "2023-02-30")
        = .error "ValueError: time data does not match format Y-m-d" := by
  constructor
  · have h := c7_format_date_valid_and_invalid.1 2023 1 5 (by omega) (by omega)
      (by omega) (by omega) (by omega) (by decide)
    rw [show canonicalDate 2023 1 5 = "2023-01-05" from rfl] at h
    rw [show ("2023-01-05" ++ "T00:00:00.000Z" : String)
        = "2023-01-05T00:00:00.000Z" from rfl] at h
    exact h
  · exact c7_format_date_valid_and_invalid.2 "2023-02-30" (by decide) (by decide)

/-! ## Facts about the end-of-day substring replacement -/

/-- The replacement pattern, as an explicit character list. -/
theorem eodPat_chars :
    eodPat = ['0', '0', ':', '0', '0', ':', '0', '0', '.', '0', '0', '0', 'Z'] :=
  rfl

/-- One scan step: at a position whose character two places ahead is
not a colon, no pattern occurrence can start (the pattern has a colon
at offset 2), so the scanner keeps the character and moves on. -/
theorem replaceEodAux_step (g f : Nat) (hg : g = f + 1) (a b c : Char)
    (rest : List Char) (hc : (':' == c) = false) :
    replaceEodAux g (a :: b :: c :: rest)
      = a :: replaceEodAux f (b :: c :: rest) := by
  subst hg
  have hp : eodPat.isPrefixOf (a :: b :: c :: rest) = false := by
    rw [eodPat_chars]
    simp [List.isPrefixOf, hc]
  simp [replaceEodAux, hp]

/-- On the exact output shape of `format_date`, the substring
replacement rewrites precisely the trailing midnight time to the
end-of-day time and leaves the date prefix intact: no earlier position
can start an occurrence because the colon at pattern offset 2 never
aligns with a digit, a dash, the 'T', or the two leading zeros. -/
theorem replaceEod_strftime (y m d : Nat) :
    replaceEod (strftime_iso y m d)
      = pad4 y ++ '-' :: (pad2 m ++ '-' :: (pad2 d ++ "T23:59:59.999Z".data)) := by
  have hexp : strftime_iso y m d
      = digitChar (y / 1000 % 10) :: digitChar (y / 100 % 10)
        :: digitChar (y / 10 % 10) :: digitChar (y % 10) :: '-'
        :: digitChar (m / 10 % 10) :: digitChar (m % 10) :: '-'
        :: digitChar (d / 10 % 10) :: digitChar (d % 10)
        :: 'T' :: '0' :: '0' :: ':' :: '0' :: '0' :: ':' :: '0' :: '0'
        :: '.' :: '0' :: '0' :: '0' :: 'Z' :: [] := rfl
  have hlen : (strftime_iso y m d).length = 24 := rfl
  simp only [replaceEod]
  rw [hlen, hexp]
  rw [replaceEodAux_step 24 23 rfl, replaceEodAux_step 23 22 rfl,
    replaceEodAux_step 22 21 rfl, replaceEodAux_step 21 20 rfl,
    replaceEodAux_step 20 19 rfl, replaceEodAux_step 19 18 rfl,
    replaceEodAux_step 18 17 rfl, replaceEodAux_step 17 16 rfl,
    replaceEodAux_step 16 15 rfl, replaceEodAux_step 15 14 rfl,
    replaceEodAux_step 14 13 rfl]
  all_goals first
  | exact colon_beq_digitChar _
  | rfl

/-! ## Claim C6 -/

/-- C6: when both dates are supplied (and format successfully),
`get_date_range` returns the `format_date` rendering of the start
unchanged and the rendering of the end transformed by the textual
substring replacement of `00:00:00.000Z` by `23:59:59.999Z`; on the
formatter's actual outputs that replacement rewrites exactly the
trailing midnight suffix; and in particular the range 2023-01-01 to
2023-01-07 resolves to the full-day bounds of the claim. -/
theorem c6_get_date_range_both_supplied :
    (∀ (dr : String × String) (s e si ei : String),
      format_date (some s) = .ok (some si) →
      format_date (some e) = .ok (some ei) →
      s.data ≠ [] → e.data ≠ [] →
      get_date_range dr (some s) (some e)
        = .ok (some si, some (String.mk (replaceEod ei.data))))
    ∧ (∀ y m d : Nat, replaceEod (strftime_iso y m d)
        = pad4 y ++ '-' :: (pad2 m ++ '-' :: (pad2 d ++ "T23:59:59.999Z".data)))
    ∧ (∀ dr : String × String,
        get_date_range dr (some "2023-01-01") (some "2023-01-07")
          = .ok (some "2023-01-01T00:00:00.000Z",
              some "2023-01-07T23:59:59.999Z")) := by
  refine ⟨?_, replaceEod_strftime, fun dr => rfl⟩
  intro dr s e si ei h1 h2 hs he
  have hts : pyTruthy (some s) = true := by
    cases hsd : s.data with
    | nil => exact absurd hsd hs
    | cons a l => simp [pyTruthy, hsd]
  have hte : pyTruthy (some e) = true := by
    cases hed : e.data with
    | nil => exact absurd hed he
    | cons a l => simp [pyTruthy, hed]
  simp [get_date_range, hts, hte, h1, h2]

/-- Witness for C6 at the concrete range of the claim. -/
theorem c6_get_date_range_both_supplied_witness :
    get_date_range ("", "") (some "2023-01-01") (some "2023-01-07")
      = .ok (some "2023-01-01T00:00:00.000Z",
          some "2023-01-07T23:59:59.999Z") :=
  c6_get_date_range_both_supplied.2.2 ("", "")

end Whoop
